import Mathlib

/-!
Shallow embedding of the FFT-based maximum-likelihood estimator
(`Estimator` class of `FFT_estimation.ipynb`) in Lean 4, together with
theorems settling the specification claims.

Modelling conventions:
* Python floats are modelled by real numbers `ℝ`; complex numpy values by `ℂ`.
* Python runtime failures (IndexError on an empty array, ZeroDivisionError)
  are modelled with `Except PyErr`.
* `scipy.special.kv` (the modified Bessel function of the second kind) is a
  library function external to the repository; it is kept abstract as a
  parameter `kv : ℝ → ℝ → ℝ` of the definitions that use it.
* pandas missing values / numpy non-finite floats are modelled by the
  inductive type `PyFloat` where that distinction matters (`dropna`).
-/

open Complex (I)
open scoped Real

/-- Python's `str.lower()` (all model identifiers here are ASCII, where
`Char.toLower` agrees with it). -/
def strLower (s : String) : String := String.mk (s.data.map Char.toLower)

/-- Python runtime errors that grid construction can actually raise. -/
inductive PyErr where
  | indexError
  | zeroDivisionError
  deriving DecidableEq

/-- The dict `params.valuesdict()` handed to the characteristic functions:
one named scalar slot per parameter name occurring in any of the models. -/
structure Pd where
  mu : ℝ
  sigma : ℝ
  theta : ℝ
  nu : ℝ
  C : ℝ
  G : ℝ
  M : ℝ
  Y : ℝ

/-- `gbm` branch of `get_cfXh`:
`lambda params, u: np.exp(-0.5*params['sigma']**2*self.dt*u**2)`. -/
noncomputable def cf_gbm (dt : ℝ) (p : Pd) (u : ℂ) : ℂ :=
  Complex.exp (-0.5 * (p.sigma : ℂ) ^ 2 * (dt : ℂ) * u ^ 2)

/-- `vg` branch of `get_cfXh`:
`(1 - 1j*u*theta*nu + 0.5*sigma**2*u**2*nu)**(-dt/nu)` (principal power). -/
noncomputable def cf_vg (dt : ℝ) (p : Pd) (u : ℂ) : ℂ :=
  (1 - I * u * (p.theta : ℂ) * (p.nu : ℂ)
      + 0.5 * (p.sigma : ℂ) ^ 2 * u ^ 2 * (p.nu : ℂ)) ^ (-(dt : ℂ) / (p.nu : ℂ))

/-- `cgmy` branch of `get_cfXh`:
`np.exp(C*dt*gamma(-Y)*((M-1j*u)**Y - M**Y + (G+1j*u)**Y - G**Y))`. -/
noncomputable def cf_cgmy (dt : ℝ) (p : Pd) (u : ℂ) : ℂ :=
  Complex.exp ((p.C : ℂ) * (dt : ℂ) * (Real.Gamma (-p.Y) : ℂ) *
    (((p.M : ℂ) - I * u) ^ (p.Y : ℂ) - (p.M : ℂ) ^ (p.Y : ℂ)
      + ((p.G : ℂ) + I * u) ^ (p.Y : ℂ) - (p.G : ℂ) ^ (p.Y : ℂ)))

/-- `modu` helper of the `t` branch:
`np.abs(params['sigma'] * np.sqrt(self.dt*(params['nu']-2.0)) * u)`. -/
noncomputable def modu (dt : ℝ) (p : Pd) (u : ℂ) : ℝ :=
  Complex.abs (((p.sigma * Real.sqrt (dt * (p.nu - 2))) : ℝ) * u)

/-- `t` branch of `get_cfXh`:
`(kv(nu/2, modu) * modu**(nu/2)) / (gamma(nu/2) * 2**(nu/2-1))`,
with `kv` the external Bessel-K routine of scipy, kept abstract. -/
noncomputable def cf_t (kv : ℝ → ℝ → ℝ) (dt : ℝ) (p : Pd) (u : ℂ) : ℂ :=
  (((kv (p.nu / 2) (modu dt p u) * (modu dt p u) ^ (p.nu / 2))
      / (Real.Gamma (p.nu / 2) * (2 : ℝ) ^ (p.nu / 2 - 1)) : ℝ) : ℂ)

/-- `Estimator.get_cfXh`: string dispatch (case-insensitive via `.lower()`),
returning `None` on an unrecognized model identifier. -/
noncomputable def get_cfXh (kv : ℝ → ℝ → ℝ) (dt : ℝ) (model : String) :
    Option (Pd → ℂ → ℂ) :=
  if strLower model = "gbm" then some (cf_gbm dt)
  else if strLower model = "vg" then some (cf_vg dt)
  else if strLower model = "cgmy" then some (cf_cgmy dt)
  else if strLower model = "t" then some (cf_t kv dt)
  else none

/-- The grid and integration data an `Estimator` instance carries after
`make_fft_params` has run: `N`, `eta`, `dt` and the derived arrays.
Arrays of length `N` are modelled as total functions on `ℕ`; only the
indices `j < N` are ever used. -/
structure GridP where
  N : ℕ
  eta : ℝ
  dt : ℝ
  b : ℝ
  lbda : ℝ
  u : ℕ → ℝ
  x : ℕ → ℝ
  w : ℕ → ℝ

/-- Body of `Estimator.make_fft_params` in the non-failing case:
`b = pi/eta`, `lbda = 2*pi/(eta*N)`, `u[j] = j*eta`, `x[j] = -b + j*lbda`,
`w = ones` with `w[0] = w[-1] = 0.5` (for `N = 1` both assignments hit the
single cell). -/
noncomputable def mkGrid (N : ℕ) (eta dt : ℝ) : GridP where
  N := N
  eta := eta
  dt := dt
  b := Real.pi / eta
  lbda := 2 * Real.pi / (eta * N)
  u := fun j => j * eta
  x := fun j => -(Real.pi / eta) + j * (2 * Real.pi / (eta * N))
  w := fun j => if j = 0 then 0.5 else if j = N - 1 then 0.5 else 1

/-- `Estimator.make_fft_params` with the Python failure behaviour, in
source order: `self.b = np.pi/self.eta` raises `ZeroDivisionError` when
`eta = 0`; next `self.lbda = 2*np.pi/(self.eta*self.N)` raises
`ZeroDivisionError` when `N = 0` (then `eta*N = 0`), before any array
exists; with `N < 0` the arrays are built empty and the assignment
`w[0] = 0.5` raises `IndexError`. No other validation exists in the
source: negative `eta` and non-positive `dt` are accepted silently. -/
noncomputable def make_fft_params (N : ℤ) (eta dt : ℝ) : Except PyErr GridP :=
  if eta = 0 then .error .zeroDivisionError
  else if N = 0 then .error .zeroDivisionError
  else if N < 0 then .error .indexError
  else .ok (mkGrid N.toNat eta dt)

/-- `scipy.fft.fft`: forward DFT without normalization,
`X[k] = sum_j a[j] * exp(-2*pi*i*j*k/N)`. -/
noncomputable def fft_embed (N : ℕ) (a : ℕ → ℂ) (k : ℕ) : ℂ :=
  ∑ j ∈ Finset.range N, a j * Complex.exp (-(2 * Real.pi * I * j * k) / N)

/-- Segment search of `np.interp`: starting from node `j`, walk right until
the query `t` lies in `[xp j, xp (j+1)]` and interpolate linearly there;
`fuel` bounds the walk by the number of remaining segments. -/
noncomputable def interpSeg (xp fp : ℕ → ℝ) (t : ℝ) : ℕ → ℕ → ℝ
  | j, 0 => fp j
  | j, fuel + 1 =>
      if t ≤ xp (j + 1) then
        fp j + (fp (j + 1) - fp j) * (t - xp j) / (xp (j + 1) - xp j)
      else interpSeg xp fp t (j + 1) fuel

/-- `np.interp(t, xp, fp)` over `n` increasing nodes: clamps to `fp 0` left
of the grid and to `fp (n-1)` right of it, linear interpolation inside. -/
noncomputable def np_interp (n : ℕ) (xp fp : ℕ → ℝ) (t : ℝ) : ℝ :=
  if t ≤ xp 0 then fp 0
  else if xp (n - 1) ≤ t then fp (n - 1)
  else interpSeg xp fp t 0 (n - 2)

/-- `omega = -1/self.dt * np.log(cfXh(paramsdict, -1j))` from `opt_fun`. -/
noncomputable def omega_of (dt : ℝ) (cfXh : Pd → ℂ → ℂ) (p : Pd) : ℂ :=
  -1 / (dt : ℂ) * Complex.log (cfXh p (-I))

/-- `cf = np.exp(1j*u*(mu*dt + omega*dt)) * cfXh(paramsdict, u)` from
`opt_fun`, as a function of the frequency `u`. -/
noncomputable def cf_of (dt : ℝ) (cfXh : Pd → ℂ → ℂ) (p : Pd) (u : ℂ) : ℂ :=
  Complex.exp (I * u * (((p.mu * dt : ℝ) : ℂ) + omega_of dt cfXh p * (dt : ℂ)))
    * cfXh p u

/-- `densities_fft = 1/np.pi * fft(np.exp(1j*self.b*u) * cf * self.eta * self.w)`
from `opt_fun`: the Fourier-inverted density samples at the `N` space nodes. -/
noncomputable def densities_fft (g : GridP) (cfXh : Pd → ℂ → ℂ) (p : Pd)
    (k : ℕ) : ℂ :=
  (1 / (Real.pi : ℂ)) * fft_embed g.N
    (fun j => Complex.exp (I * (g.b : ℂ) * (g.u j : ℂ)) * cf_of g.dt cfXh p (g.u j)
      * (g.eta : ℂ) * (g.w j : ℂ)) k

/-- One entry of
`densities = np.clip(np.interp(self.data_returns, self.x, np.real(densities_fft)), a_min=1e-9, a_max=None)`:
the interpolated real part of the inverted density at a query point,
floored at `1e-9` (`np.clip` with only a lower bound is `max`). -/
noncomputable def density_at (g : GridP) (cfXh : Pd → ℂ → ℂ) (p : Pd)
    (t : ℝ) : ℝ :=
  max (np_interp g.N g.x (fun k => (densities_fft g cfXh p k).re) t) 1e-9

/-- `return -np.sum(np.log(densities))` of `opt_fun`, for a resolved
characteristic function. -/
noncomputable def opt_fun_cf (g : GridP) (returns : List ℝ)
    (cfXh : Pd → ℂ → ℂ) (p : Pd) : ℝ :=
  -(returns.map fun r => Real.log (density_at g cfXh p r)).sum

/-- `Estimator.opt_fun(params, model)`: resolves the characteristic function
by model name and evaluates the negative log-likelihood; `none` models the
TypeError raised when `get_cfXh` returned `None` and is then called. -/
noncomputable def opt_fun (kv : ℝ → ℝ → ℝ) (g : GridP) (returns : List ℝ)
    (model : String) (p : Pd) : Option ℝ :=
  (get_cfXh kv g.dt model).map fun cfXh => opt_fun_cf g returns cfXh p

/-- pandas/numpy float values as stored in a `pd.Series`: a genuine real,
`NaN` (also covering missing values), or a signed infinity. -/
inductive PyFloat where
  | nan
  | inf
  | ninf
  | val (r : ℝ)

/-- `NaN`-ness test (what `pd.Series.dropna` filters on). -/
def PyFloat.isNaN : PyFloat → Bool
  | .nan => true
  | _ => false

/-- Finiteness test: true exactly on genuine reals. -/
def PyFloat.isFinite : PyFloat → Bool
  | .val _ => true
  | _ => false

/-- `self.data_returns = pd.Series(data_returns).dropna()` from
`Estimator.__init__`: drops the NaN/missing entries and nothing else. -/
def dropna (l : List PyFloat) : List PyFloat :=
  l.filter fun e => !e.isNaN

/-- One `lmfit` parameter row as added by `params.add_many`:
`(name, value, vary, min, max, expr, brute_step)` with the last two unused. -/
structure ParamSpec where
  name : String
  value : ℝ
  vary : Bool
  min? : Option ℝ
  max? : Option ℝ

/-- The mutable state of one `Estimator` instance: its grid attributes and
the cleaned return series. -/
structure EstState where
  grid : GridP
  data_returns : List PyFloat

/-- `Estimator.get_init_estim_params(model)`: returns the initial-guess
parameter rows for the model, and — for `'t'` only — as a side effect
overwrites `self.u` with `np.clip(self.u, a_min=0.001, a_max=None)`
(elementwise `max` with `0.001`). Unknown models silently yield an empty
`Parameters()` object and leave the state alone. -/
noncomputable def get_init_estim_params (s : EstState) (model : String) :
    List ParamSpec × EstState :=
  if strLower model = "gbm" then
    ([⟨"mu", 0.01, true, none, none⟩,
      ⟨"sigma", 0.10, true, some 0.00001, none⟩], s)
  else if strLower model = "vg" then
    ([⟨"mu", 0.01, true, none, none⟩,
      ⟨"sigma", 0.10, true, some 0.00001, none⟩,
      ⟨"theta", 0.00, true, none, none⟩,
      ⟨"nu", 0.01, true, some 0.00001, none⟩], s)
  else if strLower model = "cgmy" then
    ([⟨"mu", 0.01, true, none, none⟩,
      ⟨"C", 0.01, true, some 0.00001, none⟩,
      ⟨"G", 20, true, some 0.00001, none⟩,
      ⟨"M", 20, true, some 0.00001, none⟩,
      ⟨"Y", 1.85, true, none, some 2.0⟩], s)
  else if strLower model = "t" then
    ([⟨"mu", 0.01, true, none, none⟩,
      ⟨"sigma", 0.1, true, some 0.00001, none⟩,
      ⟨"nu", 100, true, some 2.00001, none⟩],
     { s with grid := { s.grid with u := fun j => max (s.grid.u j) 0.001 } })
  else ([], s)

/-- The class-level attributes of `Estimator` (shared defaults read by
`__init__` when the corresponding argument is omitted). -/
structure Defaults where
  N : ℤ
  eta : ℝ
  dt : ℝ

/-- `N = 2**16`, `eta = 0.5`, `dt = 1/252` as written on the class body. -/
noncomputable def classDefaults : Defaults := ⟨2 ^ 16, 0.5, 1 / 252⟩

/-- The Python heap as far as `Estimator` objects are concerned: the shared
class attributes plus every live instance, in creation order. -/
structure World where
  defaults : Defaults
  instances : List EstState

/-- `Estimator.__init__(data_returns, N, eta, dt)` acting on the world:
omitted arguments fall back to the class attributes, the return series is
`dropna`-cleaned, `make_fft_params` builds the grid, and on success a new
instance is appended; a constructor exception leaves the world unchanged. -/
noncomputable def estimator_init (w : World) (data : List PyFloat)
    (Narg : Option ℤ) (etaArg dtArg : Option ℝ) : World :=
  match make_fft_params (Narg.getD w.defaults.N) (etaArg.getD w.defaults.eta)
      (dtArg.getD w.defaults.dt) with
  | .error _ => w
  | .ok g => { w with instances := w.instances ++ [⟨g, dropna data⟩] }

/-- Calling `get_init_estim_params(model)` on the instance at index `k`,
observing its possible side effect on that instance's state. -/
noncomputable def runInitParams (w : World) (k : ℕ) (model : String) : World :=
  match w.instances[k]? with
  | none => w
  | some s => { w with instances := w.instances.set k (get_init_estim_params s model).2 }

/-- Parameter dict holding every model's initial-guess values. -/
noncomputable def p0 : Pd := ⟨0.01, 0.1, 0, 0.01, 0.01, 20, 20, 1.85⟩

/-- A concrete stand-in for the external Bessel-K routine, used only to
instantiate universally quantified statements at a closed input. -/
def kv0 : ℝ → ℝ → ℝ := fun _ _ => 0

lemma get_cfXh_eq_gbm (kv : ℝ → ℝ → ℝ) (dt : ℝ) :
    get_cfXh kv dt "gbm" = some (cf_gbm dt) := by
  have h : strLower "gbm" = "gbm" := by decide
  simp [get_cfXh, h]

lemma get_cfXh_eq_vg (kv : ℝ → ℝ → ℝ) (dt : ℝ) :
    get_cfXh kv dt "vg" = some (cf_vg dt) := by
  have h : strLower "vg" = "vg" := by decide
  simp [get_cfXh, h]

lemma get_cfXh_eq_cgmy (kv : ℝ → ℝ → ℝ) (dt : ℝ) :
    get_cfXh kv dt "cgmy" = some (cf_cgmy dt) := by
  have h : strLower "cgmy" = "cgmy" := by decide
  simp [get_cfXh, h]

lemma get_cfXh_eq_t (kv : ℝ → ℝ → ℝ) (dt : ℝ) :
    get_cfXh kv dt "t" = some (cf_t kv dt) := by
  have h : strLower "t" = "t" := by decide
  simp [get_cfXh, h]

/-- The drift correction exactly as the spec words it:
`omega = -(1/dt) * log(charFn(params, -i))`. -/
noncomputable def omega_claimed (dt : ℝ) (cfXh : Pd → ℂ → ℂ) (p : Pd) : ℂ :=
  -((1 : ℂ) / (dt : ℂ)) * Complex.log (cfXh p (-I))

/-- The per-step characteristic function exactly as the spec words it:
`cf(u) = exp(i*u*(mu*dt + omega*dt)) * charFn(params, u)`. -/
noncomputable def cf_claimed (dt : ℝ) (cfXh : Pd → ℂ → ℂ) (p : Pd) (u : ℂ) : ℂ :=
  Complex.exp (I * u * ((p.mu : ℂ) * (dt : ℂ) + omega_claimed dt cfXh p * (dt : ℂ)))
    * cfXh p u

lemma cf_of_eq_cf_claimed (dt : ℝ) (cfXh : Pd → ℂ → ℂ) (p : Pd) (u : ℂ) :
    cf_of dt cfXh p u = cf_claimed dt cfXh p u := by
  unfold cf_of cf_claimed omega_of omega_claimed
  congr 2
  push_cast
  ring

/-- C1: for every model in `{gbm, vg, cgmy, t}` and every parameter set, the
density evaluation resolves a characteristic function and the per-step
characteristic function it feeds to the Fourier inversion is
`cf(u) = exp(i*u*(mu*dt + omega*dt)) * charFn(params, u)` with
`omega = -(1/dt) * log(charFn(params, -i))`. -/
theorem opt_fun_uses_claimed_cf (kv : ℝ → ℝ → ℝ) (g : GridP) (p : Pd)
    (m : String) (hm : m ∈ ["gbm", "vg", "cgmy", "t"]) :
    ∃ φ, get_cfXh kv g.dt m = some φ ∧
      (∀ u, cf_of g.dt φ p u = cf_claimed g.dt φ p u) ∧
      (∀ ret, opt_fun kv g ret m p = some (opt_fun_cf g ret φ p)) := by
  simp only [List.mem_cons, List.not_mem_nil, or_false] at hm
  rcases hm with rfl | rfl | rfl | rfl
  · exact ⟨cf_gbm g.dt, get_cfXh_eq_gbm kv g.dt,
      fun u => cf_of_eq_cf_claimed _ _ _ _,
      fun ret => by rw [opt_fun, get_cfXh_eq_gbm]; rfl⟩
  · exact ⟨cf_vg g.dt, get_cfXh_eq_vg kv g.dt,
      fun u => cf_of_eq_cf_claimed _ _ _ _,
      fun ret => by rw [opt_fun, get_cfXh_eq_vg]; rfl⟩
  · exact ⟨cf_cgmy g.dt, get_cfXh_eq_cgmy kv g.dt,
      fun u => cf_of_eq_cf_claimed _ _ _ _,
      fun ret => by rw [opt_fun, get_cfXh_eq_cgmy]; rfl⟩
  · exact ⟨cf_t kv g.dt, get_cfXh_eq_t kv g.dt,
      fun u => cf_of_eq_cf_claimed _ _ _ _,
      fun ret => by rw [opt_fun, get_cfXh_eq_t]; rfl⟩

/-- Witness for C1 at the `gbm` model on a concrete grid and parameters. -/
theorem opt_fun_uses_claimed_cf_witness :
    ∃ φ, get_cfXh kv0 (mkGrid 4 1 1).dt "gbm" = some φ ∧
      (∀ u, cf_of (mkGrid 4 1 1).dt φ p0 u = cf_claimed (mkGrid 4 1 1).dt φ p0 u) ∧
      (∀ ret, opt_fun kv0 (mkGrid 4 1 1) ret "gbm" p0
        = some (opt_fun_cf (mkGrid 4 1 1) ret φ p0)) :=
  opt_fun_uses_claimed_cf kv0 (mkGrid 4 1 1) p0 "gbm" (by decide)

/-- C3: for every model, parameter set and query point, each density value
returned by the density evaluation is at least the floor `1e-9`
(the `np.clip` with lower bound `1e-9` is the last step of the evaluation). -/
theorem density_at_ge_floor (kv : ℝ → ℝ → ℝ) (g : GridP) (p : Pd) (t : ℝ)
    (m : String) (hm : m ∈ ["gbm", "vg", "cgmy", "t"]) (φ : Pd → ℂ → ℂ)
    (hφ : get_cfXh kv g.dt m = some φ) :
    1e-9 ≤ density_at g φ p t :=
  le_max_right _ _

/-- Witness for C3: the `gbm` model on a concrete grid, parameters and
query point. -/
theorem density_at_ge_floor_witness :
    1e-9 ≤ density_at (mkGrid 4 1 1) (cf_gbm (mkGrid 4 1 1).dt) p0 0 :=
  density_at_ge_floor kv0 (mkGrid 4 1 1) p0 0 "gbm" (by decide)
    (cf_gbm (mkGrid 4 1 1).dt) (get_cfXh_eq_gbm kv0 (mkGrid 4 1 1).dt)

/-- C4: for every model, parameter set and observed-return sample, the
objective returns the negative sum of the natural logs of the floored
densities at the observed returns, a real scalar, with every density
entering the logarithm bounded below by the strictly positive floor. -/
theorem opt_fun_is_neg_sum_log (kv : ℝ → ℝ → ℝ) (g : GridP) (returns : List ℝ)
    (m : String) (p : Pd) (hm : m ∈ ["gbm", "vg", "cgmy", "t"]) :
    ∃ φ, get_cfXh kv g.dt m = some φ ∧
      opt_fun kv g returns m p
        = some (-(returns.map fun r => Real.log (density_at g φ p r)).sum) ∧
      ∀ r ∈ returns, 1e-9 ≤ density_at g φ p r := by
  obtain ⟨φ, hφ, -, hopt⟩ := opt_fun_uses_claimed_cf kv g p m hm
  exact ⟨φ, hφ, hopt returns, fun r _ => le_max_right _ _⟩

/-- Witness for C4: the `gbm` model on a concrete grid, parameters and a
two-point sample. -/
theorem opt_fun_is_neg_sum_log_witness :
    ∃ φ, get_cfXh kv0 (mkGrid 4 1 1).dt "gbm" = some φ ∧
      opt_fun kv0 (mkGrid 4 1 1) [0.1, -0.2] "gbm" p0
        = some (-(([0.1, -0.2] : List ℝ).map fun r =>
            Real.log (density_at (mkGrid 4 1 1) φ p0 r)).sum) ∧
      ∀ r ∈ ([0.1, -0.2] : List ℝ), 1e-9 ≤ density_at (mkGrid 4 1 1) φ p0 r :=
  opt_fun_is_neg_sum_log kv0 (mkGrid 4 1 1) [0.1, -0.2] "gbm" p0 (by decide)

/-- C9: the negative-log-likelihood objective is invariant under
permutations of the observed-return sequence, for every model and
parameter set. -/
theorem opt_fun_perm_invariant (kv : ℝ → ℝ → ℝ) (g : GridP) (m : String)
    (p : Pd) (l1 l2 : List ℝ) (h : l1.Perm l2) :
    opt_fun kv g l1 m p = opt_fun kv g l2 m p := by
  unfold opt_fun
  cases get_cfXh kv g.dt m with
  | none => rfl
  | some φ =>
      have hs := (h.map fun r => Real.log (density_at g φ p r)).sum_eq
      simp [opt_fun_cf, hs]

/-- Witness for C9: swapping a two-point sample leaves the objective
unchanged. -/
theorem opt_fun_perm_invariant_witness :
    opt_fun kv0 (mkGrid 4 1 1) [0.1, -0.2] "gbm" p0
      = opt_fun kv0 (mkGrid 4 1 1) [-0.2, 0.1] "gbm" p0 :=
  opt_fun_perm_invariant kv0 (mkGrid 4 1 1) "gbm" p0 [0.1, -0.2] [-0.2, 0.1]
    (List.Perm.swap (-0.2) 0.1 [])

/-- Number of weight entries equal to `0.5` among the `N` cells of `w`. -/
noncomputable def wHalfCount (g : GridP) : ℕ :=
  ((Finset.range g.N).filter fun j => g.w j = 0.5).card

/-- Counterexample to C2 as stated: at the valid configuration `N = 1`,
`eta = 1`, `dt = 1` the weight array has a single cell, hit by both endpoint
assignments, so exactly one entry equals `0.5`, not two. -/
theorem wHalfCount_one_at_N1 : wHalfCount (mkGrid 1 1 1) ≠ 2 := by
  have h : wHalfCount (mkGrid 1 1 1) = 1 := by
    have hf : (Finset.range 1).filter (fun j => (mkGrid 1 1 1).w j = 0.5) = {0} := by
      ext j
      simp only [Finset.mem_filter, Finset.mem_range, Finset.mem_singleton, mkGrid]
      constructor
      · rintro ⟨hj, _⟩
        omega
      · rintro rfl
        exact ⟨by norm_num, by norm_num⟩
    unfold wHalfCount
    rw [show (mkGrid 1 1 1).N = 1 from rfl, hf, Finset.card_singleton]
  omega

/-- C2 (amended): for every grid configuration with `N ≥ 2`, `eta > 0`,
`dt > 0`, the constructed grid satisfies `b = pi/eta`,
`lambda = 2*pi/(eta*N)`, `u[j] = j*eta` (so `u[0] = 0`),
`x[j] = -b + j*lambda` (so `x[0] = -b` and `x[N-1] = b - lambda`), and `w`
has exactly two entries equal to `0.5` (indices `0` and `N-1`) with every
other entry equal to `1`; at `N = 1` the two endpoint assignments coincide
and exactly one entry equals `0.5`. -/
theorem mkGrid_props (N : ℕ) (eta dt : ℝ) (hN : 2 ≤ N) (heta : 0 < eta)
    (hdt : 0 < dt) :
    (mkGrid N eta dt).b = Real.pi / eta ∧
    (mkGrid N eta dt).lbda = 2 * Real.pi / (eta * N) ∧
    (∀ j, (mkGrid N eta dt).u j = j * eta) ∧
    (mkGrid N eta dt).u 0 = 0 ∧
    (∀ j, (mkGrid N eta dt).x j
      = -(mkGrid N eta dt).b + j * (mkGrid N eta dt).lbda) ∧
    (mkGrid N eta dt).x 0 = -(mkGrid N eta dt).b ∧
    (mkGrid N eta dt).x (N - 1) = (mkGrid N eta dt).b - (mkGrid N eta dt).lbda ∧
    wHalfCount (mkGrid N eta dt) = 2 ∧
    (∀ j, 0 < j → j < N - 1 → (mkGrid N eta dt).w j = 1) := by
  have hNR : ((N - 1 : ℕ) : ℝ) = (N : ℝ) - 1 := by
    have h1 : (1 : ℕ) ≤ N := le_trans (by norm_num) hN
    push_cast [h1]
    ring
  have heta' : eta ≠ 0 := ne_of_gt heta
  have hNz : (N : ℝ) ≠ 0 := by positivity
  refine ⟨rfl, rfl, fun j => rfl, by simp [mkGrid], fun j => rfl,
    by simp [mkGrid], ?_, ?_, ?_⟩
  · show -(Real.pi / eta) + ((N - 1 : ℕ) : ℝ) * (2 * Real.pi / (eta * N))
      = Real.pi / eta - 2 * Real.pi / (eta * N)
    rw [hNR]
    field_simp
    ring
  · have hfe : (Finset.range N).filter (fun j => (mkGrid N eta dt).w j = 0.5)
        = {0, N - 1} := by
      ext j
      simp only [Finset.mem_filter, Finset.mem_range, Finset.mem_insert,
        Finset.mem_singleton, mkGrid]
      constructor
      · rintro ⟨hj, hw⟩
        by_contra hc
        push_neg at hc
        rw [if_neg hc.1, if_neg hc.2] at hw
        norm_num at hw
      · rintro (rfl | rfl)
        · exact ⟨by omega, by norm_num⟩
        · refine ⟨by omega, ?_⟩
          rw [if_neg (by omega), if_pos rfl]
    unfold wHalfCount
    rw [show (mkGrid N eta dt).N = N from rfl, hfe]
    rw [Finset.card_insert_of_not_mem (by simp; omega), Finset.card_singleton]
  · intro j hj1 hj2
    show (if j = 0 then (0.5 : ℝ) else if j = N - 1 then 0.5 else 1) = 1
    rw [if_neg (by omega), if_neg (by omega)]

/-- Witness for the amended C2 at `N = 4`, `eta = 1`, `dt = 1`. -/
theorem mkGrid_props_witness :
    (mkGrid 4 1 1).b = Real.pi / 1 ∧
    (mkGrid 4 1 1).lbda = 2 * Real.pi / (1 * (4 : ℕ)) ∧
    (∀ j, (mkGrid 4 1 1).u j = j * 1) ∧
    (mkGrid 4 1 1).u 0 = 0 ∧
    (∀ j, (mkGrid 4 1 1).x j = -(mkGrid 4 1 1).b + j * (mkGrid 4 1 1).lbda) ∧
    (mkGrid 4 1 1).x 0 = -(mkGrid 4 1 1).b ∧
    (mkGrid 4 1 1).x (4 - 1) = (mkGrid 4 1 1).b - (mkGrid 4 1 1).lbda ∧
    wHalfCount (mkGrid 4 1 1) = 2 ∧
    (∀ j, 0 < j → j < 4 - 1 → (mkGrid 4 1 1).w j = 1) :=
  mkGrid_props 4 1 1 (by norm_num) (by norm_num) (by norm_num)

/-- Counterexample to C7 as stated: constructing with `dt = -1` (and with
`eta = -1`) succeeds silently, and the errors actually raised — a
`ZeroDivisionError` for `eta = 0` or `N = 0` (the `b` and `lbda` division
lines), an `IndexError` for negative `N` (the `w[0]` assignment on an
empty array) — are plain runtime errors, not a dedicated
`InvalidGridConfig`. -/
theorem make_fft_params_no_validation :
    make_fft_params 4 1 (-1) = .ok (mkGrid 4 1 (-1)) ∧
    make_fft_params 4 (-1) 1 = .ok (mkGrid 4 (-1) 1) ∧
    make_fft_params 0 1 1 = .error .zeroDivisionError ∧
    make_fft_params (-3) 1 1 = .error .indexError ∧
    make_fft_params 4 0 1 = .error .zeroDivisionError := by
  refine ⟨?_, ?_, ?_, ?_, ?_⟩ <;> simp [make_fft_params]

/-- C7 (amended): grid construction performs no explicit validation.
It fails with `ZeroDivisionError` exactly when `eta = 0` (the `pi/eta`
line) or when `eta ≠ 0` and `N = 0` (the `2*pi/(eta*N)` line, reached
before any array exists), with `IndexError` exactly when `eta ≠ 0` and
`N < 0` (the `w[0] = 0.5` assignment on an empty array), and succeeds
otherwise — in particular negative `eta` and non-positive `dt` are
accepted without any error. -/
theorem make_fft_params_failure_characterization (N : ℤ) (eta dt : ℝ) :
    (make_fft_params N eta dt = .error .zeroDivisionError
      ↔ (eta = 0 ∨ N = 0)) ∧
    (make_fft_params N eta dt = .error .indexError ↔ (eta ≠ 0 ∧ N < 0)) ∧
    ((∃ g, make_fft_params N eta dt = .ok g) ↔ (eta ≠ 0 ∧ 0 < N)) := by
  unfold make_fft_params
  split_ifs with h1 h2 h3
  · simp [h1]
  · simp [h1, h2]
  · simp [h1, h2, h3]
    omega
  · simp [h1, h2, h3]
    omega

/-- C5 (code behaviour at the failing input): on an `Estimator` whose grid
has `u[0] = 0`, calling `get_init_estim_params('t')` permanently overwrites
the stored frequency array with `np.clip(self.u, 0.001, None)`, so the grid
state seen by every subsequent evaluation — of any model — has
`u[0] = 0.001`, contradicting the claimed immutability of the grid. -/
theorem t_init_mutates_shared_grid :
    (mkGrid 4 1 1).u 0 = 0 ∧
    (get_init_estim_params ⟨mkGrid 4 1 1, []⟩ "t").2.grid.u 0 = 0.001 ∧
    (get_init_estim_params ⟨mkGrid 4 1 1, []⟩ "t").2.grid.u 0
      ≠ (mkGrid 4 1 1).u 0 := by
  have ht : strLower "t" = "t" := by decide
  have h0 : (mkGrid 4 1 1).u 0 = 0 := by simp [mkGrid]
  have h1 : (get_init_estim_params ⟨mkGrid 4 1 1, []⟩ "t").2.grid.u 0 = 0.001 := by
    unfold get_init_estim_params
    simp only [ht]
    rw [if_neg (by decide), if_neg (by decide), if_neg (by decide)]
    simp only [if_true]
    show max ((0 : ℕ) * (1 : ℝ)) 0.001 = 0.001
    rw [max_eq_right (by norm_num)]
  refine ⟨h0, h1, ?_⟩
  rw [h0, h1]
  norm_num

/-- Counterexample to C6 as stated: on the unrecognized identifier
`"unknown"`, model selection raises nothing at all — `get_cfXh` silently
returns `None`, `get_init_estim_params` returns an empty parameter set with
the state untouched, and the failure only surfaces inside the objective
(modelled by `opt_fun = none`), i.e. after numerical work has begun. -/
theorem unknown_model_is_silent :
    get_cfXh kv0 1 "unknown" = none ∧
    get_init_estim_params ⟨mkGrid 4 1 1, []⟩ "unknown" = ([], ⟨mkGrid 4 1 1, []⟩) ∧
    opt_fun kv0 (mkGrid 4 1 1) [] "unknown" p0 = none := by
  have h : strLower "unknown" = "unknown" := by decide
  refine ⟨?_, ?_, ?_⟩
  · simp [get_cfXh, h]
  · simp [get_init_estim_params, h]
  · simp [opt_fun, get_cfXh, h]

/-- C6 (amended): for every identifier whose lower-cased form is not one of
`gbm`, `vg`, `cgmy`, `t`, no `UnknownModel` error is raised at selection
time: `get_cfXh` returns `None`, `get_init_estim_params` returns an empty
parameter set leaving the instance unchanged, and the objective then fails
on the `None` characteristic function (a TypeError during numerical work,
modelled by `opt_fun = none`). -/
theorem unknown_model_returns_none (kv : ℝ → ℝ → ℝ) (dt : ℝ) (s : EstState)
    (m : String) (hm : strLower m ∉ ["gbm", "vg", "cgmy", "t"]) :
    get_cfXh kv dt m = none ∧
    get_init_estim_params s m = ([], s) ∧
    (∀ (g : GridP) (returns : List ℝ) (p : Pd), opt_fun kv g returns m p = none) := by
  simp only [List.mem_cons, List.not_mem_nil, or_false, not_or] at hm
  obtain ⟨h1, h2, h3, h4⟩ := hm
  refine ⟨?_, ?_, fun g returns p => ?_⟩
  · simp [get_cfXh, h1, h2, h3, h4]
  · simp [get_init_estim_params, h1, h2, h3, h4]
  · simp [opt_fun, get_cfXh, h1, h2, h3, h4]

/-- Witness for the amended C6 at the identifier `"unknown"`. -/
theorem unknown_model_returns_none_witness :
    get_cfXh kv0 1 "unknown" = none ∧
    get_init_estim_params ⟨mkGrid 4 1 1, []⟩ "unknown" = ([], ⟨mkGrid 4 1 1, []⟩) ∧
    (∀ (g : GridP) (returns : List ℝ) (p : Pd),
      opt_fun kv0 g returns "unknown" p = none) :=
  unknown_model_returns_none kv0 1 ⟨mkGrid 4 1 1, []⟩ "unknown" (by decide)

/-- Counterexample to C8 as stated: `dropna` removes only NaN/missing
entries — an infinity in the input series survives into the stored
`data_returns`, so not every stored element is a finite real. -/
theorem dropna_keeps_infinities :
    dropna [PyFloat.val 1, PyFloat.inf] = [PyFloat.val 1, PyFloat.inf] ∧
    PyFloat.inf ∈ dropna [PyFloat.val 1, PyFloat.inf] ∧
    PyFloat.inf.isFinite = false := by
  refine ⟨rfl, ?_, rfl⟩
  rw [show dropna [PyFloat.val 1, PyFloat.inf]
    = [PyFloat.val 1, PyFloat.inf] from rfl]
  exact List.mem_cons_of_mem _ (List.mem_singleton.2 rfl)

/-- C8 (amended): after construction, the stored return sequence is the
input with exactly the NaN/missing entries removed — no stored element is
NaN, the relative order of the survivors is preserved (sublist of the
input), and every non-NaN input entry (including infinities) is retained. -/
theorem dropna_removes_exactly_nan (l : List PyFloat) :
    (dropna l).Sublist l ∧
    (∀ e ∈ dropna l, e.isNaN = false) ∧
    (∀ e ∈ l, e.isNaN = false → e ∈ dropna l) := by
  refine ⟨List.filter_sublist l, ?_, ?_⟩
  · intro e he
    have h := List.of_mem_filter he
    simpa using h
  · intro e he hn
    exact List.mem_filter.2 ⟨he, by simp [hn]⟩

/-- Witness for the amended C8 on a concrete mixed list. -/
theorem dropna_removes_exactly_nan_witness :
    (dropna [PyFloat.nan, PyFloat.val 2]).Sublist [PyFloat.nan, PyFloat.val 2] ∧
    PyFloat.val 2 ∈ dropna [PyFloat.nan, PyFloat.val 2] :=
  ⟨(dropna_removes_exactly_nan [PyFloat.nan, PyFloat.val 2]).1,
   (dropna_removes_exactly_nan [PyFloat.nan, PyFloat.val 2]).2.2 (PyFloat.val 2)
     (List.mem_cons_of_mem _ (List.mem_singleton.2 rfl)) rfl⟩

/-- C10: creating a new `Estimator` (with or without explicit `N`, `eta`,
`dt`) and running model selection — including the `t`-model frequency
clamp — changes nothing outside the affected instance: the class-level
defaults `N = 2^16 = 65536`, `eta = 0.5`, `dt = 1/252` are never written,
previously created instances keep their state, and the clamp touches only
the instance it was invoked on. -/
theorem estimator_frame_effects (w : World) (data : List PyFloat)
    (Narg : Option ℤ) (etaArg dtArg : Option ℝ) (k j : ℕ) (m : String)
    (hjk : j ≠ k) :
    classDefaults.N = 65536 ∧ classDefaults.eta = 0.5 ∧
    classDefaults.dt = 1 / 252 ∧
    (estimator_init w data Narg etaArg dtArg).defaults = w.defaults ∧
    (∀ i, i < w.instances.length →
      (estimator_init w data Narg etaArg dtArg).instances[i]? = w.instances[i]?) ∧
    (runInitParams w k m).defaults = w.defaults ∧
    (runInitParams w k m).instances[j]? = w.instances[j]? := by
  refine ⟨by norm_num [classDefaults], rfl, rfl, ?_, ?_, ?_, ?_⟩
  · unfold estimator_init
    cases make_fft_params (Narg.getD w.defaults.N) (etaArg.getD w.defaults.eta)
        (dtArg.getD w.defaults.dt) with
    | error e => rfl
    | ok g => rfl
  · intro i hi
    unfold estimator_init
    cases make_fft_params (Narg.getD w.defaults.N) (etaArg.getD w.defaults.eta)
        (dtArg.getD w.defaults.dt) with
    | error e => rfl
    | ok g =>
        show (w.instances ++ [⟨g, dropna data⟩])[i]? = w.instances[i]?
        rw [List.getElem?_append]
        simp [hi]
  · unfold runInitParams
    cases w.instances[k]? with
    | none => rfl
    | some s => rfl
  · unfold runInitParams
    cases w.instances[k]? with
    | none => rfl
    | some s =>
        show (w.instances.set k (get_init_estim_params s m).2)[j]? = w.instances[j]?
        exact List.getElem?_set_ne (Ne.symm hjk)

/-- A concrete two-instance world for the C10 witness. -/
noncomputable def w0 : World :=
  ⟨classDefaults, [⟨mkGrid 4 1 1, []⟩, ⟨mkGrid 8 1 1, []⟩]⟩

/-- Witness for C10: constructing a third instance with explicit arguments
and running the `t` clamp on instance `1` leaves the defaults and
instance `0` untouched. -/
theorem estimator_frame_effects_witness :
    classDefaults.N = 65536 ∧ classDefaults.eta = 0.5 ∧
    classDefaults.dt = 1 / 252 ∧
    (estimator_init w0 [] (some 16) (some 1) (some 1)).defaults = w0.defaults ∧
    (∀ i, i < w0.instances.length →
      (estimator_init w0 [] (some 16) (some 1) (some 1)).instances[i]?
        = w0.instances[i]?) ∧
    (runInitParams w0 1 "t").defaults = w0.defaults ∧
    (runInitParams w0 1 "t").instances[0]? = w0.instances[0]? :=
  estimator_frame_effects w0 [] (some 16) (some 1) (some 1) 1 0 "t" (by decide)
